import Mathlib

/-!
Verification development for `src/lxc/start.c` (the `lxc_start` container
start orchestration): lock acquisition, lifecycle state machine, namespace
flag computation, the parent/child handshake over a socketpair, the pid
record file, and the goto-based failure-unwind cascade.

The C function is embedded shallowly: every external call (lock, setstate,
readlink, socketpair, fork, channel reads/writes, open/write, waitpid) is
an oracle value carried by an `Env` record, and `lxc_start` deterministically
maps an `Env` to its return value together with a trace of observable events
(state transitions attempted, pid record writes, cleanup actions, ...).
The child process body (the `!pid` branch) is embedded separately as
`lxc_child` over a `ChildEnv`.
-/

namespace Lxc

/-! ### Constants

Clone flag values from `<sched.h>`, as used at start.c:91-95. -/

def CLONE_NEWNS : Nat := 0x00020000
def CLONE_NEWUTS : Nat := 0x04000000
def CLONE_NEWIPC : Nat := 0x08000000
def CLONE_NEWPID : Nat := 0x20000000
def CLONE_NEWNET : Nat := 0x40000000

/-- Modelled from the spec: `error.h` is included by start.c but is not under
`src/`.  The spec says the caller receives one discriminated outcome
(busy / internal error / success), so the two error codes are modelled as
distinct positive constants; start.c returns their negations. -/
def LXC_ERROR_INTERNAL : Int := 1

/-- Modelled from the spec: second distinct error code, see `LXC_ERROR_INTERNAL`. -/
def LXC_ERROR_BUSY : Int := 2

/-! ### Namespace flag computation (start.c:91-95) -/

/-- `clone_flags = CLONE_NEWPID|CLONE_NEWIPC|CLONE_NEWNS;` then
`|= CLONE_NEWUTS` if `conf_has_utsname(name)` and `|= CLONE_NEWNET` if
`conf_has_network(name)`. -/
def cloneFlags (hasUtsname hasNetwork : Bool) : Nat :=
  let f := CLONE_NEWPID ||| CLONE_NEWIPC ||| CLONE_NEWNS
  let f := if hasUtsname then f ||| CLONE_NEWUTS else f
  if hasNetwork then f ||| CLONE_NEWNET else f

/-- Bit test used by start.c:164 and start.c:224/250 (`clone_flags & CLONE_NEWNET`). -/
def hasNetFlag (flags : Nat) : Bool := flags &&& CLONE_NEWNET != 0

/-! ### Lifecycle states and observable events -/

/-- The lifecycle states of `<lxc/lxc.h>` used by start.c. -/
inductive LxcState
  | STARTING
  | RUNNING
  | STOPPING
  | STOPPED
  | ABORTING
deriving DecidableEq, Repr

/-- Observable events of one parent-side run of `lxc_start`, in program order. -/
inductive Event
  /-- `lxc_setstate(name, s)` was called; `ok` is whether it succeeded. -/
  | setState (s : LxcState) (ok : Bool)
  /-- `lxc_link_nsgroup(name, pid)` was called (failure is only a warning). -/
  | linkNsgroup (ok : Bool)
  /-- `conf_create_network(name, pid)` was called. -/
  | createNet (ok : Bool)
  /-- `conf_destroy_network(name)` was called. -/
  | destroyNet
  /-- `open(init, O_WRONLY|O_CREAT|O_TRUNC, ...)` was attempted; on success the
  file now exists (empty). -/
  | openRecord (ok : Bool)
  /-- the pid record content was fully written. -/
  | writeRecord (content : String)
  /-- one `waitpid` call of the `wait_again` loop. -/
  | waitAttempt
  /-- the `waitpid(pid, NULL, 0)` reap on the child-failed branch (start.c:185). -/
  | reapChild
  /-- `kill(pid, SIGKILL)` on the unwind cascade (start.c:259). -/
  | killChild
  /-- `unlink(init)` at `out` (start.c:234); `pathKnown` records whether the
  `init` buffer had been filled in by the snprintf at start.c:191. -/
  | unlinkInit (pathKnown : Bool)
  /-- `lxc_unlink_nsgroup(name)` at `out` (start.c:233). -/
  | unlinkNsgroup
  /-- `lxc_put_lock(lock)` at `out` (start.c:236). -/
  | putLock
deriving DecidableEq, Repr

/-! ### Environment: oracle of external-call results -/

/-- Results of the external calls made by one run of the parent side of
`lxc_start`, in the order the code can make them. -/
structure Env where
  /-- return of `lxc_get_lock(name)`: `0` busy, negative error, positive held. -/
  getLock : Int
  /-- whether `lxc_setstate(name, s)` succeeds (returns 0) for each state. -/
  setstateOk : LxcState → Bool
  /-- whether `readlink("/proc/self/fd/0", ...)` succeeds. -/
  readlinkOk : Bool
  /-- whether `socketpair(AF_LOCAL, SOCK_STREAM, 0, sv)` succeeds. -/
  socketpairOk : Bool
  /-- `conf_has_utsname(name)`. -/
  hasUtsname : Bool
  /-- `conf_has_network(name)`. -/
  hasNetwork : Bool
  /-- return of `fork_ns(clone_flags)` as seen by the parent: negative on
  failure, otherwise the child pid (positive). -/
  forkRes : Int
  /-- whether the first `read(sv[1], ...)` (ready signal) returns `≥ 0`. -/
  readReadyOk : Bool
  /-- whether `lxc_link_nsgroup(name, pid)` succeeds. -/
  linkNsgroupOk : Bool
  /-- whether `conf_create_network(name, pid)` succeeds. -/
  createNetworkOk : Bool
  /-- whether the continue-signal `write(sv[1], ...)` returns `≥ 0`. -/
  writeContinueOk : Bool
  /-- return of the final `read(sv[1], &sync, sizeof(sync))`: negative on
  I/O error, `0` on end-of-stream, positive byte count otherwise. -/
  finalRead : Int
  /-- whether `open(init, ...)` succeeds. -/
  openRecordOk : Bool
  /-- whether the `write(fd, val, strlen(val))` succeeds. -/
  writeRecordOk : Bool
  /-- number of `waitpid` calls of the `wait_again` loop that fail with
  `EINTR` before one completes. -/
  waitEintrs : Nat
  /-- whether the completing `waitpid` call succeeds (as opposed to failing
  with an errno other than `EINTR`). -/
  waitFinalOk : Bool
  /-- whether the translation unit was compiled with `NETWORK_DESTROY`
  defined (the `conf_destroy_network` calls sit inside
  `#ifdef NETWORK_DESTROY` blocks, start.c:223-226 and 249-252). -/
  netDestroyDefined : Bool

/-- `asprintf(&val, "%d\n", pid)` (start.c:189): decimal pid, then newline. -/
def pidContent (pid : Int) : String := toString pid ++ "\n"

/-! ### The parent-side run of lxc_start

The goto targets of the unwind cascade become the functions below; each one
appends the events its C block performs and chains to the next label. -/

/-- The `out` block (start.c:229-240): set STOPPED, unlink the nsgroup,
unlink the init (pid record) path, release the lock, return `errv`. -/
def outBlock (e : Env) (errv : Int) (initSet : Bool) (acc : List Event) :
    Int × List Event :=
  (errv, acc ++ [Event.setState .STOPPED (e.setstateOk .STOPPED),
                 Event.unlinkNsgroup, Event.unlinkInit initSet, Event.putLock])

/-- The cascade from `err_create_network`/`err_pipe_read`/`err_waitpid_failed`
(start.c:253-263): set ABORTING, SIGKILL the child, close the socketpair,
fall into `out`. -/
def abortBlock (e : Env) (errv : Int) (initSet : Bool) (acc : List Event) :
    Int × List Event :=
  outBlock e errv initSet
    (acc ++ [Event.setState .ABORTING (e.setstateOk .ABORTING), Event.killChild])

/-- The cascade from `err_state_failed`/`err_child_failed`/`err_pipe_read2`/
`err_pipe_write` (start.c:245-252): destroy the network if compiled with
`NETWORK_DESTROY` and `clone_flags & CLONE_NEWNET`, then fall into the
ABORTING cascade. -/
def netDestroyBlock (e : Env) (errv : Int) (initSet : Bool) (net : Bool)
    (acc : List Event) : Int × List Event :=
  abortBlock e errv initSet
    (acc ++ if e.netDestroyDefined && net then [Event.destroyNet] else [])

/-- The tail of the parent side after the continue signal was written
(start.c:175-228): the final channel read and its classification, the pid
record, the RUNNING transition, the wait loop, and normal completion.
`net` is `clone_flags & CLONE_NEWNET` and `tr2` the events so far. -/
def afterContinue (e : Env) (net : Bool) (tr2 : List Event) : Int × List Event :=
  if e.finalRead < 0 then
    -- err_pipe_read2: note err now holds the read return value
    netDestroyBlock e e.finalRead false net tr2
  else if 0 < e.finalRead then
    -- child failure: reap it, then err_child_failed; err holds the positive
    -- byte count
    netDestroyBlock e e.finalRead false net (tr2 ++ [Event.reapChild])
  else
    -- finalRead = 0: end-of-stream, classified as success
    let tr3 := tr2 ++ [Event.openRecord e.openRecordOk]
    if !e.openRecordOk then
      -- err_write; err still holds 0 from the read
      netDestroyBlock e 0 true net tr3
    else if !e.writeRecordOk then
      netDestroyBlock e 0 true net tr3
    else
      let tr4 := tr3 ++ [Event.writeRecord (pidContent e.forkRes)]
      if !e.setstateOk .RUNNING then
        netDestroyBlock e 0 true net (tr4 ++ [Event.setState .RUNNING false])
      else
        let tr5 := tr4 ++ [Event.setState .RUNNING true]
                   ++ List.replicate (e.waitEintrs + 1) Event.waitAttempt
        if !e.waitFinalOk then
          -- err_waitpid_failed (below the network-destroy block)
          abortBlock e 0 true tr5
        else
          let tr6 := tr5 ++ [Event.setState .STOPPING (e.setstateOk .STOPPING)]
                     ++ (if e.netDestroyDefined && net then [Event.destroyNet] else [])
          outBlock e 0 true tr6

/-- The parent side of `lxc_start` (start.c:48-263), as a function of the
oracle `Env`: returns the C return value and the trace of observable events. -/
def lxc_start (e : Env) : Int × List Event :=
  if e.getLock == 0 then (-LXC_ERROR_BUSY, [])
  else if e.getLock < 0 then (-LXC_ERROR_INTERNAL, [])
  else if !e.setstateOk .STARTING then
    outBlock e (-LXC_ERROR_INTERNAL) false [Event.setState .STARTING false]
  else
    let tr0 := [Event.setState .STARTING true]
    if !e.readlinkOk then outBlock e (-LXC_ERROR_INTERNAL) false tr0
    else if !e.socketpairOk then outBlock e (-LXC_ERROR_INTERNAL) false tr0
    else
      let net := hasNetFlag (cloneFlags e.hasUtsname e.hasNetwork)
      if e.forkRes < 0 then
        -- err_fork_ns: close the socketpair and go straight to out
        outBlock e (-LXC_ERROR_INTERNAL) false tr0
      else if !e.readReadyOk then
        -- err_pipe_read (below the network-destroy block)
        abortBlock e (-LXC_ERROR_INTERNAL) false tr0
      else
        let tr1 := tr0 ++ [Event.linkNsgroup e.linkNsgroupOk]
        if net && !e.createNetworkOk then
          -- err_create_network (below the network-destroy block)
          abortBlock e (-LXC_ERROR_INTERNAL) false (tr1 ++ [Event.createNet false])
        else
          let tr2 := tr1 ++ if net then [Event.createNet true] else []
          if !e.writeContinueOk then
            netDestroyBlock e (-LXC_ERROR_INTERNAL) false net tr2
          else
            afterContinue e net tr2

/-- Return value of a run. -/
def retOf (e : Env) : Int := (lxc_start e).1

/-- Event trace of a run. -/
def traceOf (e : Env) : List Event := (lxc_start e).2

/-! ### The child-side run (start.c:104-150) -/

/-- Results of the external calls made by the child branch. -/
structure ChildEnv where
  /-- whether the ready-signal `write(sv[0], ...)` succeeds. -/
  writeReadyOk : Bool
  /-- whether the continue-signal `read(sv[0], ...)` succeeds. -/
  readContinueOk : Bool
  /-- whether `lxc_setup(name)` succeeds. -/
  setupOk : Bool
  /-- whether `mount(ttyname, "/dev/console", "none", MS_BIND, 0)` succeeds. -/
  mountConsoleOk : Bool
  /-- whether `prctl(PR_CAPBSET_DROP, CAP_SYS_BOOT, 0, 0, 0)` succeeds. -/
  prctlOk : Bool
  /-- whether `execvp(argv[0], argv)` succeeds (replacing the image). -/
  execOk : Bool
  /-- whether an outcome-signal `write(sv[0], ...)` succeeds. -/
  outcomeWriteOk : Bool

/-- How the child branch ends. -/
inductive ChildResult
  /-- `execvp` succeeded: the image is replaced and the close-on-exec
  channel endpoint closes, so the parent reads end-of-stream. -/
  | execed
  /-- `exit(status)` was reached (`out_child`, start.c:148-149). -/
  | exited (status : Int)
deriving DecidableEq, Repr

/-- Observables of one child-branch run. -/
structure ChildTrace where
  /-- whether the ready-signal byte was actually sent. -/
  readySent : Bool
  /-- how many outcome-signal bytes were actually sent. -/
  outcomeBytes : Nat
  /-- whether `execvp` was attempted. -/
  execAttempted : Bool
  result : ChildResult
deriving DecidableEq, Repr

/-- The child branch of `lxc_start` (start.c:104-150): write the ready byte,
wait for the continue byte, run `lxc_setup`, bind-mount the console, drop
CAP_SYS_BOOT, exec.  `lxc_setup` failure and exec failure write an outcome
byte; every failure ends in `exit(1)`. -/
def lxc_child (c : ChildEnv) : ChildTrace :=
  if !c.writeReadyOk then
    ⟨false, 0, false, .exited 1⟩
  else if !c.readContinueOk then
    ⟨true, 0, false, .exited 1⟩
  else if !c.setupOk then
    ⟨true, if c.outcomeWriteOk then 1 else 0, false, .exited 1⟩
  else if !c.mountConsoleOk then
    ⟨true, 0, false, .exited 1⟩
  else if !c.prctlOk then
    ⟨true, 0, false, .exited 1⟩
  else if c.execOk then
    ⟨true, 0, true, .execed⟩
  else
    ⟨true, if c.outcomeWriteOk then 1 else 0, true, .exited 1⟩

/-! ### Trace analysis -/

/-- Step function: the externally observable lifecycle state (the last
successfully set state; failed `lxc_setstate` calls leave it unchanged). -/
def stateStep (st : Option LxcState) (ev : Event) : Option LxcState :=
  match ev with
  | .setState s true => some s
  | _ => st

/-- The externally observable lifecycle state after a trace. -/
def stateAfter (l : List Event) : Option LxcState := l.foldl stateStep none

/-- Step function: the last lifecycle transition attempted, successful or not. -/
def attemptStep (st : Option LxcState) (ev : Event) : Option LxcState :=
  match ev with
  | .setState s _ => some s
  | _ => st

/-- The last lifecycle transition attempted in a trace, successful or not. -/
def lastStateAttempt (l : List Event) : Option LxcState := l.foldl attemptStep none

/-- Step function: whether the pid record file exists — created by a
successful `open(init, O_WRONLY|O_CREAT|O_TRUNC, ...)`, removed by
`unlink(init)` when the `init` buffer had been filled in. -/
def recordStep (r : Bool) (ev : Event) : Bool :=
  match ev with
  | .openRecord true => true
  | .unlinkInit true => false
  | _ => r

/-- Whether the pid record file exists after a trace. -/
def recordAfter (l : List Event) : Bool := l.foldl recordStep false

/-- One step of the state/record tracking used by `runningImpliesRecord`. -/
def riStep (st : Option LxcState) (r : Bool) (ev : Event) : Option LxcState × Bool :=
  (stateStep st ev, recordStep r ev)

/-- Checks, at every point of a trace, that if the observable lifecycle state
is RUNNING then the pid record exists. -/
def riAux (st : Option LxcState) (r : Bool) : List Event → Bool
  | [] => true
  | ev :: rest =>
    let p := riStep st r ev
    (if p.1 = some LxcState.RUNNING then p.2 else true) && riAux p.1 p.2 rest

/-- At every point of the trace, observable state RUNNING implies the pid
record exists. -/
def runningImpliesRecord (l : List Event) : Bool := riAux none false l

/-- Number of occurrences of an event in a trace. -/
def countEv (a : Event) : List Event → Nat
  | [] => 0
  | ev :: rest => (if ev = a then 1 else 0) + countEv a rest

/-- The content of a pid-record write event, if any. -/
def recPayload (ev : Event) : Option String :=
  match ev with
  | .writeRecord s => some s
  | _ => none

/-- The outcome of a pid-record open event, if any. -/
def openPayload (ev : Event) : Option Bool :=
  match ev with
  | .openRecord b => some b
  | _ => none

/-! ### Concrete environments used as witnesses and counterexamples -/

/-- A run in which every external call succeeds and the child execs
(`finalRead = 0`): the fully successful start. -/
def envOk : Env :=
  { getLock := 1, setstateOk := fun _ => true, readlinkOk := true,
    socketpairOk := true, hasUtsname := false, hasNetwork := false,
    forkRes := 42, readReadyOk := true, linkNsgroupOk := true,
    createNetworkOk := true, writeContinueOk := true, finalRead := 0,
    openRecordOk := true, writeRecordOk := true, waitEintrs := 0,
    waitFinalOk := true, netDestroyDefined := false }

/-- A run with a network configuration, built without `NETWORK_DESTROY`,
in which the continue-signal write fails after the network was created. -/
def envNetLeak : Env :=
  { envOk with hasNetwork := true, writeContinueOk := false,
               netDestroyDefined := false }

/-- A child-branch run in which the console bind-mount fails and everything
else succeeds. -/
def childMountFail : ChildEnv :=
  { writeReadyOk := true, readContinueOk := true, setupOk := true,
    mountConsoleOk := false, prctlOk := true, execOk := true,
    outcomeWriteOk := true }

/-! ### Helper lemmas -/

/-- The network bit of the computed flag set is exactly `conf_has_network`. -/
theorem hasNetFlag_cloneFlags (u n : Bool) : hasNetFlag (cloneFlags u n) = n := by
  cases u <;> cases n <;> decide

theorem countEv_append (a : Event) (l₁ l₂ : List Event) :
    countEv a (l₁ ++ l₂) = countEv a l₁ + countEv a l₂ := by
  induction l₁ with
  | nil => simp [countEv]
  | cons x xs ih =>
      simp only [List.cons_append, countEv, List.append_eq, ih]
      omega

theorem countEv_replicate (a b : Event) (n : Nat) :
    countEv a (List.replicate n b) = if b = a then n else 0 := by
  induction n with
  | zero => simp [countEv, List.replicate]
  | succ m ih =>
      simp only [List.replicate_succ, countEv, ih]
      split <;> omega

theorem foldl_replicate_fixed {α β : Type} (f : β → α → β) (a : α)
    (h : ∀ s, f s a = s) (n : Nat) (s : β) :
    List.foldl f s (List.replicate n a) = s := by
  induction n with
  | zero => rfl
  | succ m ih => simp only [List.replicate_succ, List.foldl_cons, h, ih]

theorem riAux_replicate_wait (n : Nat) (rest : List Event) :
    riAux (some LxcState.RUNNING) true (List.replicate n Event.waitAttempt ++ rest)
      = riAux (some LxcState.RUNNING) true rest := by
  induction n with
  | zero => rfl
  | succ m ih =>
      simp only [List.replicate_succ, List.cons_append, riAux, riStep,
        stateStep, recordStep]
      simpa using ih

theorem filterMap_replicate_none {α β : Type} (f : α → Option β) (a : α)
    (h : f a = none) (n : Nat) :
    List.filterMap f (List.replicate n a) = [] := by
  induction n with
  | zero => rfl
  | succ m ih => simp only [List.replicate_succ, List.filterMap_cons, h, ih]

/-- Under the hypotheses that take the run up to the continue signal
(start.c:48-173 all succeeding), `lxc_start` reduces to `afterContinue`. -/
theorem lxc_start_after_continue (e : Env)
    (hlock : 0 < e.getLock)
    (hstart : e.setstateOk .STARTING = true)
    (hrl : e.readlinkOk = true)
    (hsp : e.socketpairOk = true)
    (hfork : 0 ≤ e.forkRes)
    (hready : e.readReadyOk = true)
    (hnet : e.hasNetwork = true → e.createNetworkOk = true)
    (hwc : e.writeContinueOk = true) :
    lxc_start e = afterContinue e e.hasNetwork
      ([Event.setState .STARTING true, Event.linkNsgroup e.linkNsgroupOk]
        ++ if e.hasNetwork then [Event.createNet true] else []) := by
  have c1 : (e.getLock == 0) = false := by
    simp only [beq_eq_false_iff_ne]
    omega
  have c2 : ¬ e.getLock < 0 := by omega
  have c5 : ¬ e.forkRes < 0 := by omega
  have c7 : (e.hasNetwork && !e.createNetworkOk) = false := by
    cases hn : e.hasNetwork
    · simp
    · simp [hnet hn]
  simp only [lxc_start, hasNetFlag_cloneFlags, c1, eq_false c2, eq_false c5, c7,
    hstart, hrl, hsp, hready, hwc, Bool.not_true, Bool.false_eq_true, if_false,
    ite_false]
  simp

/-! ### C7: namespace flag computation -/

/-- Claim C7: the namespace flag set computed before spawn always contains
the process-id, inter-process-communication, and mount isolation flags; it
contains the host/domain-name flag iff the configuration declares a
host/domain name, and the network flag iff it declares network setup; with
neither declared it equals exactly the three-flag base set. -/
theorem clone_flags_spec (u n : Bool) :
    cloneFlags u n &&& CLONE_NEWPID ≠ 0 ∧
    cloneFlags u n &&& CLONE_NEWIPC ≠ 0 ∧
    cloneFlags u n &&& CLONE_NEWNS ≠ 0 ∧
    (cloneFlags u n &&& CLONE_NEWUTS ≠ 0 ↔ u = true) ∧
    (cloneFlags u n &&& CLONE_NEWNET ≠ 0 ↔ n = true) ∧
    (u = false → n = false →
      cloneFlags u n = CLONE_NEWPID ||| CLONE_NEWIPC ||| CLONE_NEWNS) := by
  cases u <;> cases n <;> decide

/-- Witness for `clone_flags_spec` at the no-utsname/no-network configuration. -/
theorem clone_flags_spec_witness :
    cloneFlags false false = CLONE_NEWPID ||| CLONE_NEWIPC ||| CLONE_NEWNS :=
  (clone_flags_spec false false).2.2.2.2.2 rfl rfl

/-! ### C2: child-side failure modes -/

/-- Counterexample to claim C2 as stated: when the console bind-mount fails
(start.c:131-134) the child jumps to `out_child` and exits 1 WITHOUT writing
the outcome-signal byte — only `lxc_setup` failure (start.c:126) and exec
failure (start.c:145) write it. -/
theorem child_mount_fail_no_byte :
    (lxc_child childMountFail).outcomeBytes = 0 ∧
    (lxc_child childMountFail).result = ChildResult.exited 1 := by
  decide

/-- Claim C2, amended: after the continue signal, container setup failure
writes the outcome-signal byte (when that write itself succeeds) and exits
with status 1 before exec is attempted; exec failure likewise writes the
byte; console bind-mount failure and capability-drop (prctl) failure exit
with status 1 before exec WITHOUT writing the outcome byte. -/
theorem child_failure_modes (c : ChildEnv)
    (hr : c.writeReadyOk = true) (hc : c.readContinueOk = true)
    (hw : c.outcomeWriteOk = true) :
    (c.setupOk = false →
      lxc_child c = ⟨true, 1, false, .exited 1⟩) ∧
    (c.setupOk = true → c.mountConsoleOk = false →
      lxc_child c = ⟨true, 0, false, .exited 1⟩) ∧
    (c.setupOk = true → c.mountConsoleOk = true → c.prctlOk = false →
      lxc_child c = ⟨true, 0, false, .exited 1⟩) ∧
    (c.setupOk = true → c.mountConsoleOk = true → c.prctlOk = true →
      c.execOk = false →
      lxc_child c = ⟨true, 1, true, .exited 1⟩) := by
  rcases c with ⟨wr, rc, su, mo, pr, ex, ow⟩
  cases hr; cases hc; cases hw
  cases su <;> cases mo <;> cases pr <;> cases ex <;> simp [lxc_child]

/-- Witness for `child_failure_modes`: a child whose `lxc_setup` fails writes
one outcome byte and exits 1 without attempting exec. -/
theorem child_failure_modes_witness :
    lxc_child { childMountFail with setupOk := false, mountConsoleOk := true }
      = ⟨true, 1, false, .exited 1⟩ :=
  (child_failure_modes
    { childMountFail with setupOk := false, mountConsoleOk := true }
    rfl rfl rfl).1 rfl

/-! ### C3: the three-way discriminated return value -/

/-- Claim C3 names intended behavior the code does not implement: on the
child-failure branch `err` holds the positive byte count returned by the
final read (start.c:176), and on the pid-record failure branch `err` holds
0, so `lxc_start` can return values other than `-LXC_ERROR_BUSY`,
`-LXC_ERROR_INTERNAL` and 0.  Here a child-failure run (final read returns
4 bytes) makes `lxc_start` return 4, and a run whose pid-record open fails
takes the kill/ABORTING unwind yet returns 0. -/
theorem return_value_escapes_taxonomy :
    retOf { envOk with finalRead := 4 } = 4 ∧
    (4:Int) ≠ -LXC_ERROR_BUSY ∧
    (4:Int) ≠ -LXC_ERROR_INTERNAL ∧
    (4:Int) ≠ 0 ∧
    retOf { envOk with openRecordOk := false } = 0 ∧
    Event.killChild ∈ traceOf { envOk with openRecordOk := false } := by
  decide

/-! ### C1: classification of the final handshake read -/

/-- Claim C1: in the final handshake step, whenever the parent's last channel
read completes without an I/O error, a zero-length read is classified as
success (the run proceeds to the pid-record stage and never reaps), and a
read of one or more bytes is classified as child failure (the child is
reaped and the ABORTING/kill unwind is taken, and the pid-record stage is
never reached); the classification is never the reverse. -/
theorem final_read_classification (e : Env)
    (hlock : 0 < e.getLock)
    (hstart : e.setstateOk .STARTING = true)
    (hrl : e.readlinkOk = true)
    (hsp : e.socketpairOk = true)
    (hfork : 0 ≤ e.forkRes)
    (hready : e.readReadyOk = true)
    (hnet : e.hasNetwork = true → e.createNetworkOk = true)
    (hwc : e.writeContinueOk = true)
    (hio : 0 ≤ e.finalRead) :
    (Event.reapChild ∈ traceOf e ↔ 0 < e.finalRead) ∧
    (0 < e.finalRead →
      Event.setState .ABORTING (e.setstateOk .ABORTING) ∈ traceOf e ∧
      Event.killChild ∈ traceOf e ∧
      (∀ b, Event.openRecord b ∉ traceOf e)) ∧
    (e.finalRead = 0 →
      Event.openRecord e.openRecordOk ∈ traceOf e ∧
      Event.reapChild ∉ traceOf e) := by
  have htr := lxc_start_after_continue e hlock hstart hrl hsp hfork hready hnet hwc
  have h3 : ¬ e.finalRead < 0 := by omega
  rcases lt_or_eq_of_le hio with hpos | hzero
  · have h5 : e.finalRead ≠ 0 := by omega
    simp only [traceOf, htr, afterContinue, eq_false h3, eq_true hpos, if_true,
      if_false, netDestroyBlock, abortBlock, outBlock]
    cases hn : e.hasNetwork <;> cases hd : e.netDestroyDefined <;>
      simp_all
  · have h5 : ¬ 0 < e.finalRead := by omega
    simp only [traceOf, htr, afterContinue, eq_false h3, eq_false h5, if_false,
      netDestroyBlock, abortBlock, outBlock]
    cases hn : e.hasNetwork <;> cases hd : e.netDestroyDefined <;>
      cases ho : e.openRecordOk <;> cases hw : e.writeRecordOk <;>
      cases hrun : e.setstateOk .RUNNING <;> cases hwf : e.waitFinalOk <;>
      simp_all [List.mem_replicate]

/-- Witness for `final_read_classification` at the all-successful run. -/
theorem final_read_classification_witness :
    Event.openRecord true ∈ traceOf envOk ∧ Event.reapChild ∉ traceOf envOk :=
  (final_read_classification envOk (by decide) rfl rfl rfl (by decide) rfl
    (by decide) rfl (by decide)).2.2 rfl

/-! ### C8: the wait_again loop -/

/-- Claim C8: in the blocking wait after RUNNING is reached, every `EINTR`
interruption retries the wait (the trace has exactly `waitEintrs + 1` wait
attempts) and interruption is never treated as failure: the failure unwind
(ABORTING) is taken exactly when the completing `waitpid` fails with an
errno other than `EINTR`. -/
theorem wait_retries_on_eintr (e : Env)
    (hlock : 0 < e.getLock)
    (hstart : e.setstateOk .STARTING = true)
    (hrl : e.readlinkOk = true)
    (hsp : e.socketpairOk = true)
    (hfork : 0 ≤ e.forkRes)
    (hready : e.readReadyOk = true)
    (hnet : e.hasNetwork = true → e.createNetworkOk = true)
    (hwc : e.writeContinueOk = true)
    (hfr : e.finalRead = 0)
    (ho : e.openRecordOk = true)
    (hw : e.writeRecordOk = true)
    (hrun : e.setstateOk .RUNNING = true) :
    countEv Event.waitAttempt (traceOf e) = e.waitEintrs + 1 ∧
    (Event.setState .ABORTING (e.setstateOk .ABORTING) ∈ traceOf e ↔
      e.waitFinalOk = false) := by
  have htr := lxc_start_after_continue e hlock hstart hrl hsp hfork hready hnet hwc
  have h3 : ¬ e.finalRead < 0 := by omega
  have h5 : ¬ 0 < e.finalRead := by omega
  simp only [traceOf, htr, afterContinue, eq_false h3, eq_false h5, if_false,
    ho, hw, hrun, Bool.not_true, Bool.false_eq_true, ite_false,
    netDestroyBlock, abortBlock, outBlock]
  cases hn : e.hasNetwork <;> cases hd : e.netDestroyDefined <;>
    cases hwf : e.waitFinalOk <;>
    simp_all [countEv_append, countEv_replicate, countEv, List.mem_replicate] <;>
    omega

/-- Witness for `wait_retries_on_eintr` at a run interrupted three times. -/
theorem wait_retries_on_eintr_witness :
    countEv Event.waitAttempt (traceOf { envOk with waitEintrs := 3 }) = 4 :=
  (wait_retries_on_eintr { envOk with waitEintrs := 3 } (by decide) rfl rfl rfl
    (by decide) rfl (by decide) rfl rfl rfl rfl rfl).1

/-! ### C9: pid-record failure after a successful handshake returns 0 -/

/-- Claim C9: if the final handshake read returns zero bytes but the open or
write of the pid record file then fails, `lxc_start` takes the failure
unwind (ABORTING is set and the child is force-killed) yet still returns 0,
the success outcome, because `err` was overwritten by the zero-length read
result at start.c:176. -/
theorem pid_record_failure_returns_success (e : Env)
    (hlock : 0 < e.getLock)
    (hstart : e.setstateOk .STARTING = true)
    (hrl : e.readlinkOk = true)
    (hsp : e.socketpairOk = true)
    (hfork : 0 ≤ e.forkRes)
    (hready : e.readReadyOk = true)
    (hnet : e.hasNetwork = true → e.createNetworkOk = true)
    (hwc : e.writeContinueOk = true)
    (hfr : e.finalRead = 0)
    (hfail : e.openRecordOk = false ∨ e.writeRecordOk = false) :
    retOf e = 0 ∧
    Event.setState .ABORTING (e.setstateOk .ABORTING) ∈ traceOf e ∧
    Event.killChild ∈ traceOf e := by
  have htr := lxc_start_after_continue e hlock hstart hrl hsp hfork hready hnet hwc
  have h3 : ¬ e.finalRead < 0 := by omega
  have h5 : ¬ 0 < e.finalRead := by omega
  simp only [retOf, traceOf, htr, afterContinue, eq_false h3, eq_false h5,
    if_false, netDestroyBlock, abortBlock, outBlock]
  cases hn : e.hasNetwork <;> cases hd : e.netDestroyDefined <;>
    cases ho : e.openRecordOk <;> cases hw : e.writeRecordOk <;>
    simp_all

/-- Witness for `pid_record_failure_returns_success`: pid-record open fails. -/
theorem pid_record_failure_returns_success_witness :
    retOf { envOk with openRecordOk := false } = 0 ∧
    Event.setState .ABORTING true ∈ traceOf { envOk with openRecordOk := false } ∧
    Event.killChild ∈ traceOf { envOk with openRecordOk := false } :=
  pid_record_failure_returns_success { envOk with openRecordOk := false }
    (by decide) rfl rfl rfl (by decide) rfl (by decide) rfl rfl (Or.inl rfl)

/-! ### C10: the final transition on every exit path is STOPPED -/

theorem lastStateAttempt_outBlock (e : Env) (v : Int) (i : Bool)
    (acc : List Event) :
    lastStateAttempt (outBlock e v i acc).2 = some LxcState.STOPPED := by
  simp [outBlock, lastStateAttempt, List.foldl_append, attemptStep]

theorem stopped_mem_outBlock (e : Env) (v : Int) (i : Bool) (acc : List Event) :
    Event.setState .STOPPED (e.setstateOk .STOPPED) ∈ (outBlock e v i acc).2 := by
  simp [outBlock]

set_option maxHeartbeats 2000000 in
/-- Whenever the lock is held, every exit path of `lxc_start` funnels
through the shared `out` cleanup block. -/
theorem lxc_start_is_outBlock (e : Env) (hlock : 0 < e.getLock) :
    ∃ v i acc, lxc_start e = outBlock e v i acc := by
  have c1 : ¬ (e.getLock == 0) = true := by
    simp only [beq_iff_eq]
    omega
  have c2 : ¬ e.getLock < 0 := by omega
  unfold lxc_start
  rw [if_neg c1, if_neg c2, hasNetFlag_cloneFlags]
  repeat first
  | split
  | exact ⟨_, _, _, rfl⟩
  | simp only []
  | unfold afterContinue

/-- Claim C10: on every exit path other than the two early lock-failure
returns, the last lifecycle transition attempted before returning sets the
state to STOPPED (the shared `out` cleanup block), for aborted and normal
starts alike. -/
theorem final_transition_is_stopped (e : Env) (hlock : 0 < e.getLock) :
    lastStateAttempt (traceOf e) = some LxcState.STOPPED ∧
    Event.setState .STOPPED (e.setstateOk .STOPPED) ∈ traceOf e := by
  obtain ⟨v, i, acc, h⟩ := lxc_start_is_outBlock e hlock
  rw [traceOf, h]
  exact ⟨lastStateAttempt_outBlock e v i acc, stopped_mem_outBlock e v i acc⟩

/-- Witness for `final_transition_is_stopped` at the all-successful run. -/
theorem final_transition_is_stopped_witness :
    lastStateAttempt (traceOf envOk) = some LxcState.STOPPED ∧
    Event.setState .STOPPED true ∈ traceOf envOk :=
  final_transition_is_stopped envOk (by decide)

/-! ### C4: which failure paths set ABORTING -/

/-- Counterexample to claim C4 as stated: a readlink failure after a
successful STARTING transition jumps to `out` (start.c:75-78), which never
sets ABORTING — the trace goes straight to the STOPPED cleanup.  (The
socketpair- and fork-failure paths behave the same way: `goto out` and
`err_fork_ns` both sit below the ABORTING transition of the cascade.) -/
theorem readlink_failure_skips_aborting :
    traceOf { envOk with readlinkOk := false } =
      [Event.setState .STARTING true, Event.setState .STOPPED true,
       Event.unlinkNsgroup, Event.unlinkInit false, Event.putLock] ∧
    Event.setState .ABORTING true ∉ traceOf { envOk with readlinkOk := false } ∧
    Event.setState .ABORTING false ∉ traceOf { envOk with readlinkOk := false } := by
  decide

/-- The reduction of `lxc_start` once the run has reached the fork and the
fork succeeded (start.c:48-102 all succeeding). -/
theorem lxc_start_after_fork (e : Env)
    (hlock : 0 < e.getLock)
    (hstart : e.setstateOk .STARTING = true)
    (hrl : e.readlinkOk = true)
    (hsp : e.socketpairOk = true)
    (hfork : 0 ≤ e.forkRes) :
    lxc_start e =
      if !e.readReadyOk then
        abortBlock e (-LXC_ERROR_INTERNAL) false [Event.setState .STARTING true]
      else
        let tr1 := [Event.setState .STARTING true,
                    Event.linkNsgroup e.linkNsgroupOk]
        if e.hasNetwork && !e.createNetworkOk then
          abortBlock e (-LXC_ERROR_INTERNAL) false (tr1 ++ [Event.createNet false])
        else
          let tr2 := tr1 ++ if e.hasNetwork then [Event.createNet true] else []
          if !e.writeContinueOk then
            netDestroyBlock e (-LXC_ERROR_INTERNAL) false e.hasNetwork tr2
          else
            afterContinue e e.hasNetwork tr2 := by
  have c1 : (e.getLock == 0) = false := by
    simp only [beq_eq_false_iff_ne]
    omega
  have c2 : ¬ e.getLock < 0 := by omega
  have c5 : ¬ e.forkRes < 0 := by omega
  simp only [lxc_start, hasNetFlag_cloneFlags, c1, eq_false c2, eq_false c5,
    hstart, hrl, hsp, Bool.not_true, Bool.false_eq_true, if_false, ite_false]
  simp

/-- Claim C4, amended: after a successful STARTING transition, the parent-side
handshake failures (ready-read, continue-write, final-read error), child
failure, and the pid-record failures all set ABORTING on their unwind path,
and RUNNING is only ever attempted after a zero-length final read; but the
readlink-, socketpair- and fork-failure paths skip ABORTING and go directly
to the STOPPED cleanup. -/
theorem aborting_on_late_failures (e : Env)
    (hlock : 0 < e.getLock)
    (hstart : e.setstateOk .STARTING = true)
    (hrl : e.readlinkOk = true)
    (hsp : e.socketpairOk = true)
    (hfork : 0 ≤ e.forkRes)
    (hfail : e.readReadyOk = false ∨ e.writeContinueOk = false ∨
      e.finalRead < 0 ∨ 0 < e.finalRead ∨
      e.openRecordOk = false ∨ e.writeRecordOk = false) :
    Event.setState .ABORTING (e.setstateOk .ABORTING) ∈ traceOf e ∧
    (Event.setState .RUNNING true ∈ traceOf e → e.finalRead = 0) ∧
    (Event.setState .RUNNING false ∈ traceOf e → e.finalRead = 0) := by
  have htr := lxc_start_after_fork e hlock hstart hrl hsp hfork
  rw [traceOf, htr]
  repeat' first
  | split
  | simp only []
  | unfold afterContinue
  all_goals simp_all [abortBlock, netDestroyBlock, outBlock, List.mem_replicate]

/-- Witness for `aborting_on_late_failures` at a run whose final read
returns a failure byte. -/
theorem aborting_on_late_failures_witness :
    Event.setState .ABORTING true ∈ traceOf { envOk with finalRead := 4 } :=
  (aborting_on_late_failures { envOk with finalRead := 4 } (by decide) rfl rfl
    rfl (by decide) (by decide)).1

/-! ### C5: the pid record and the RUNNING state -/

/-- Counterexample to claim C5 as stated: in the fully successful run, right
after the pid record is written (start.c:193-204) and before the RUNNING
transition (start.c:206), the record exists while the observable state is
still STARTING, so "the pid record exists iff the state is RUNNING" fails
at that point of the run. -/
theorem record_exists_while_starting :
    recordAfter ((traceOf envOk).take 4) = true ∧
    stateAfter ((traceOf envOk).take 4) = some LxcState.STARTING := by
  decide

set_option maxHeartbeats 8000000 in
/-- Claim C5, amended: the pid record is opened and written only on the
zero-length-read (success) branch; when written its content is exactly the
decimal child pid followed by a newline; the record is absent after every
exit path; and at every point of every run the RUNNING state implies the
record exists — but not conversely: the record is created just before the
RUNNING transition (while the state is still STARTING) and survives until
after the STOPPED transition of the cleanup block. -/
theorem pid_record_invariant (e : Env)
    (hstop : e.setstateOk .STOPPED = true) :
    (e.finalRead ≠ 0 → (traceOf e).filterMap openPayload = []) ∧
    ((traceOf e).filterMap recPayload = [] ∨
      (traceOf e).filterMap recPayload = [pidContent e.forkRes]) ∧
    recordAfter (traceOf e) = false ∧
    runningImpliesRecord (traceOf e) = true := by
  cases hsg : e.setstateOk .STOPPING <;> cases hab : e.setstateOk .ABORTING <;>
  · unfold traceOf lxc_start
    rw [hasNetFlag_cloneFlags]
    repeat' first
    | split
    | simp only []
    | unfold afterContinue
    all_goals
      simp_all [abortBlock, netDestroyBlock, outBlock, recordAfter,
        runningImpliesRecord, riAux, riStep, stateStep, recordStep,
        recPayload, openPayload, List.filterMap_cons, List.filterMap_append,
        List.foldl_append, riAux_replicate_wait,
        filterMap_replicate_none openPayload Event.waitAttempt rfl,
        filterMap_replicate_none recPayload Event.waitAttempt rfl,
        foldl_replicate_fixed recordStep Event.waitAttempt (fun s => rfl)]
    all_goals
      first
      | omega
      | (cases hnd2 : e.netDestroyDefined <;>
           simp_all [recordAfter, recordStep, runningImpliesRecord, riAux,
             riStep, stateStep] <;>
           try omega)

/-- Witness for `pid_record_invariant` at the all-successful run. -/
theorem pid_record_invariant_witness :
    (traceOf envOk).filterMap recPayload = [] ∨
    (traceOf envOk).filterMap recPayload = [pidContent (42:Int)] :=
  (pid_record_invariant envOk rfl).2.1

/-! ### C6: completeness of the failure unwind -/

/-- Counterexample to claim C6 as stated: the `conf_destroy_network` calls
sit inside `#ifdef NETWORK_DESTROY` (start.c:223-226, 249-252), and nothing
in this translation unit defines that macro; built without it, a run that
creates the network and then fails at the continue write leaves the network
resource undestroyed. -/
theorem network_leak_without_destroy_flag :
    Event.createNet true ∈ traceOf envNetLeak ∧
    Event.destroyNet ∉ traceOf envNetLeak := by
  decide

set_option maxHeartbeats 4000000 in
/-- Claim C6, amended: for every failure point after the lock is acquired
and up to (and including) the RUNNING transition failure, after `lxc_start`
returns the lock has been released exactly once, the namespace-group
registration has been removed, the pid record is absent, and — provided the
code was built with `NETWORK_DESTROY` defined — the network resource has
been destroyed if one was created; the cleanup steps run unconditionally,
even when cleanup-side state transitions fail. -/
theorem unwind_releases_resources (e : Env)
    (hnd : e.netDestroyDefined = true)
    (hlock : 0 < e.getLock)
    (hfail : e.setstateOk .STARTING = false ∨ e.readlinkOk = false ∨
      e.socketpairOk = false ∨ e.forkRes < 0 ∨ e.readReadyOk = false ∨
      (e.hasNetwork = true ∧ e.createNetworkOk = false) ∨
      e.writeContinueOk = false ∨ e.finalRead < 0 ∨ 0 < e.finalRead ∨
      e.openRecordOk = false ∨ e.writeRecordOk = false ∨
      e.setstateOk .RUNNING = false) :
    countEv Event.putLock (traceOf e) = 1 ∧
    Event.unlinkNsgroup ∈ traceOf e ∧
    (Event.createNet true ∈ traceOf e → Event.destroyNet ∈ traceOf e) ∧
    recordAfter (traceOf e) = false := by
  have c1 : ¬ (e.getLock == 0) = true := by
    simp only [beq_iff_eq]
    omega
  have c2 : ¬ e.getLock < 0 := by omega
  unfold traceOf lxc_start
  rw [hasNetFlag_cloneFlags]
  repeat' first
  | split
  | simp only []
  | unfold afterContinue
  all_goals
    simp_all [abortBlock, netDestroyBlock, outBlock, countEv, recordAfter,
      recordStep, List.foldl_append,
      foldl_replicate_fixed recordStep Event.waitAttempt (fun s => rfl)]

/-- Witness for `unwind_releases_resources` at a network-configured run
built with `NETWORK_DESTROY` whose continue write fails. -/
theorem unwind_releases_resources_witness :
    countEv Event.putLock
      (traceOf { envNetLeak with netDestroyDefined := true }) = 1 ∧
    Event.unlinkNsgroup ∈ traceOf { envNetLeak with netDestroyDefined := true } ∧
    (Event.createNet true ∈ traceOf { envNetLeak with netDestroyDefined := true } →
      Event.destroyNet ∈ traceOf { envNetLeak with netDestroyDefined := true }) ∧
    recordAfter (traceOf { envNetLeak with netDestroyDefined := true }) = false :=
  unwind_releases_resources { envNetLeak with netDestroyDefined := true }
    rfl (by decide) (by decide)

end Lxc
